import Mathlib

/-
Verification of the etre core data model (etre.go): Entity, Set, WriteResult,
Error, and the meta-label accessors. Entities are dynamically typed attribute
bags; we embed them as association lists from label names to a closed dynamic
value type. Functions that can panic in the source (unchecked type assertions,
the explicit panic in Rev) are embedded as Option-returning functions where
none marks the fatal outcome.
-/

set_option autoImplicit false

namespace Etre

/-- Protocol constants from etre.go. -/
def VERSION : String := "0.12.0"

def API_ROOT : String := "/api/v1"

def META_LABEL_ID : String := "_id"

def META_LABEL_TYPE : String := "_type"

def META_LABEL_REV : String := "_rev"

def CDC_WRITE_TIMEOUT : Int := 5

/-- Dynamic value stored under a label. Go stores interface\x7b\x7d; the source
only ever inspects string, int64, int32 and int, so we embed those exactly and
keep representative constructors for the remaining dynamic types (bool, float64
as its raw bit pattern, null, nested arrays are not inspected by any accessor
and are represented by vFloat/vBool/vNull for the purposes of the claims). -/
inductive Value where
  | vInt64 : Int → Value
  | vInt32 : Int → Value
  | vInt : Int → Value
  | vStr : String → Value
  | vBool : Bool → Value
  | vFloat : Nat → Value
  | vNull : Value
  deriving DecidableEq, Repr

/-- Entity is a mapping from label name to dynamic value
(Go: map[string]interface\x7b\x7d), embedded as an association list. -/
def Entity : Type := List (String × Value)

instance : DecidableEq Entity :=
  inferInstanceAs (DecidableEq (List (String × Value)))

/-- Map indexing e[label], comma-ok form: some v when present. -/
def Entity.get (e : Entity) (label : String) : Option Value :=
  List.lookup label (e : List (String × Value))

/-- Id() reads _id and type-asserts string; none is the panic case. -/
def Entity.Id (e : Entity) : Option String :=
  match e.get META_LABEL_ID with
  | some (Value.vStr s) => some s
  | _ => none

/-- Type() reads _type and type-asserts string; none is the panic case. -/
def Entity.Type (e : Entity) : Option String :=
  match e.get META_LABEL_TYPE with
  | some (Value.vStr s) => some s
  | _ => none

/-- Rev() switches on the dynamic type of _rev: int64 is returned as is,
int32 and int are widened to int64. Any other type (or an absent label, whose
lookup yields the nil interface) falls through to the panic, embedded as
none. -/
def Entity.Rev (e : Entity) : Option Int :=
  match e.get META_LABEL_REV with
  | some (Value.vInt64 v) => some v
  | some (Value.vInt32 v) => some v
  | some (Value.vInt v) => some v
  | _ => none

/-- Has returns true when the entity has the label, regardless of its value. -/
def Entity.Has (e : Entity) (label : String) : Bool :=
  (e.get label).isSome

/-- A Set is a user-defined logical grouping of writes. -/
structure Set where
  Id : String := ""
  Op : String := ""
  Size : Int := 0
  deriving DecidableEq, Repr

/-- One _setId/_setOp step of Entity.Set: if the label is absent the field
keeps its zero value; if present the source type-asserts string, so a
present non-string value is the panic case (none). -/
def Entity.setFieldString (e : Entity) (label : String) : Option String :=
  match e.get label with
  | none => some ""
  | some (Value.vStr s) => some s
  | some _ => none

/-- The _setSize step of Entity.Set: a switch over int64/int32/int with no
default, so an absent label or any other type leaves size at 0. The int64
and int32 cases convert with int(...), the identity on a 64-bit platform. -/
def Entity.setSizeVal (e : Entity) : Int :=
  match e.get "_setSize" with
  | some (Value.vInt64 n) => n
  | some (Value.vInt32 n) => n
  | some (Value.vInt n) => n
  | _ => 0

/-- Set() builds the Set projection; none is the panic case arising from the
unchecked string assertions on a present _setId or _setOp. -/
def Entity.Set (e : Entity) : Option Set :=
  match e.setFieldString "_setId", e.setFieldString "_setOp" with
  | some i, some o => some { Id := i, Op := o, Size := e.setSizeVal }
  | _, _ => none

/-- The fixed table of the seven reserved meta-label names. -/
def metaLabels : List String :=
  ["_id", "_rev", "_setId", "_setOp", "_setSize", "_ts", "_type"]

/-- IsMetalabel looks the label up in the table; a missing key reads as
false, exactly as the Go map[string]bool does. -/
def IsMetalabel (label : String) : Bool :=
  metaLabels.contains label

/-- Labels returns all labels, sorted, including meta-labels. The source
collects the map keys and calls sort.Strings. -/
def Entity.Labels (e : Entity) : List String :=
  List.insertionSort (fun a b => a ≤ b)
    ((e : List (String × Value)).map Prod.fst)

/-- String returns the string value of the label; if the label is not set or
its value is not a string, an empty string is returned. Total: no panic. -/
def Entity.String (e : Entity) (label : String) : String :=
  match e.get label with
  | some (Value.vStr s) => s
  | _ => ""

/-- Helper predicate: the dynamic types Rev and the _setSize switch accept. -/
def isIntValue : Value → Bool
  | Value.vInt64 _ => true
  | Value.vInt32 _ => true
  | Value.vInt _ => true
  | _ => false

/-- Helper predicate: the dynamic type the string assertions accept. -/
def isStringValue : Value → Bool
  | Value.vStr _ => true
  | _ => false

/-- Write represents the successful write of one entity. -/
structure Write where
  EntityId : String := ""
  URI : String := ""
  Diff : Entity := ([] : List (String × Value))
  deriving DecidableEq

/-- Error is the standard response for all handled errors. -/
structure Error where
  Message : String := ""
  «Type» : String := ""
  EntityId : String := ""
  HTTPStatus : Int := 0
  deriving DecidableEq, Repr

/-- WriteResult represents the result of a write operation. Writes are the
successful writes; Error, when set, is the error before, during, or after
writes. -/
structure WriteResult where
  Writes : List Write := []
  Error : Option Error := none
  deriving DecidableEq

/-- IsZero: no error and no successful writes. -/
def WriteResult.IsZero (wr : WriteResult) : Bool :=
  wr.Error.isNone && wr.Writes.length == 0

/-- Rendering of one dynamic value by the formatter, as the %v verb would. -/
def renderValue : Value → String
  | Value.vStr s => s
  | Value.vInt64 n => toString n
  | Value.vInt32 n => toString n
  | Value.vInt n => toString n
  | Value.vBool b => toString b
  | Value.vFloat bits => toString bits
  | Value.vNull => "<nil>"

/-- Modelled from the spec: fmt.Sprintf is an external collaborator (the spec
speaks only of "the formatted string"). We model it faithfully for the common
verbs: %% emits a literal percent, %s/%d/%v consume the next argument and
render it, every other character is copied through. -/
def sprintfChars : List Char → List Value → List Char
  | [], _ => []
  | '%' :: '%' :: rest, args => '%' :: sprintfChars rest args
  | '%' :: c :: rest, a :: args =>
    if c = 's' ∨ c = 'd' ∨ c = 'v' then
      (renderValue a).data ++ sprintfChars rest args
    else
      '%' :: c :: sprintfChars rest args
  | '%' :: c :: rest, [] => '%' :: c :: sprintfChars rest []
  | c :: rest, args => c :: sprintfChars rest args

def Sprintf (msgFmt : String) (msgArgs : List Value) : String :=
  String.mk (sprintfChars msgFmt.data msgArgs)

/-- Error.New: with a non-empty format string the copy of the receiver gets
Message set to the formatted string; with an empty format string the receiver
is returned as is. The receiver is passed by value, so the original is never
mutated. -/
def Error.New (e : Error) (msgFmt : String) (msgArgs : List Value) : Error :=
  if msgFmt ≠ "" then { e with Message := Sprintf msgFmt msgArgs } else e

/-- CDCEvent mirrors one committed write. -/
structure CDCEvent where
  Id : String := ""
  Ts : Int := 0
  Op : String := ""
  Caller : String := ""
  EntityId : String := ""
  EntityType : String := ""
  EntityRev : Int := 0
  Old : Option Entity := none
  New : Option Entity := none
  SetId : String := ""
  SetOp : String := ""
  SetSize : Int := 0
  deriving DecidableEq

/-! ## Helper lemmas, shared between the claim theorems -/

/-- Rev falls through to the panic whenever _rev is absent or holds a value
outside the three accepted integer encodings. -/
theorem rev_eq_none_of_bad_type (e : Entity)
    (h : (e.get META_LABEL_REV).all (fun v => !isIntValue v) = true) :
    e.Rev = none := by
  unfold Entity.Rev
  cases hv : e.get META_LABEL_REV with
  | none => rfl
  | some v =>
    rw [hv] at h
    cases v <;> simp_all [Option.all, isIntValue]

/-- The _setId/_setOp step succeeds exactly when the label is absent (giving
the zero string) or holds a string (giving that string). -/
theorem setFieldString_of_all_string (e : Entity) (label : String)
    (h : (e.get label).all isStringValue = true) :
    ∃ s : String, e.setFieldString label = some s ∧
      (e.get label = none → s = "") ∧
      (∀ str : String, e.get label = some (Value.vStr str) → s = str) := by
  unfold Entity.setFieldString
  cases hv : e.get label with
  | none => exact ⟨"", rfl, fun _ => rfl, fun str hstr => by simp_all⟩
  | some v =>
    rw [hv] at h
    cases v <;> simp_all [Option.all, isStringValue]

/-- The _setSize switch leaves size at zero when the label is absent or holds
a value outside the three accepted integer encodings. -/
theorem setSizeVal_eq_zero_of_bad_type (e : Entity)
    (h : (e.get "_setSize").all (fun v => !isIntValue v) = true) :
    e.setSizeVal = 0 := by
  unfold Entity.setSizeVal
  cases hv : e.get "_setSize" with
  | none => rfl
  | some v =>
    rw [hv] at h
    cases v <;> simp_all [Option.all, isIntValue]

/-- Assembling Set from its two fallible field steps. -/
theorem set_eq_some_of_steps (e : Entity) (i o : String)
    (hid : e.setFieldString "_setId" = some i)
    (hop : e.setFieldString "_setOp" = some o) :
    e.Set = some { Id := i, Op := o, Size := e.setSizeVal } := by
  unfold Entity.Set
  rw [hid, hop]

/-- Association-list lookup succeeds exactly when the key occurs among the
keys of the list. -/
theorem lookup_isSome_iff_mem_keys (l : List (String × Value)) (label : String) :
    (List.lookup label l).isSome = true ↔ label ∈ l.map Prod.fst := by
  induction l with
  | nil => simp [List.lookup]
  | cons p rest ih =>
    obtain ⟨k, v⟩ := p
    by_cases hk : label = k
    · subst hk
      simp [List.lookup]
    · have hbeq : (label == k) = false := by
        simpa using hk
      simp [List.lookup, hbeq, ih, hk]

/-! ## Claim theorems -/

/-- C1: for every entity whose _rev label holds an integer value v stored as
int64, int32 or native int, Rev() returns the signed 64-bit integer
numerically equal to v, identical across all three encodings. -/
theorem rev_normalizes_three_encodings (e : Entity) (v : Int) :
    (e.get META_LABEL_REV = some (Value.vInt64 v) → e.Rev = some v) ∧
    (e.get META_LABEL_REV = some (Value.vInt32 v) → e.Rev = some v) ∧
    (e.get META_LABEL_REV = some (Value.vInt v) → e.Rev = some v) := by
  refine ⟨fun h => ?_, fun h => ?_, fun h => ?_⟩ <;> simp [Entity.Rev, h]

/-- Witness for C1 at v = 7 under each of the three encodings. -/
theorem rev_normalizes_three_encodings_witness :
    Entity.Rev [("_rev", Value.vInt64 7)] = some 7 ∧
    Entity.Rev [("_rev", Value.vInt32 7)] = some 7 ∧
    Entity.Rev [("_rev", Value.vInt 7)] = some 7 :=
  ⟨(rev_normalizes_three_encodings [("_rev", Value.vInt64 7)] 7).1 (by decide),
   (rev_normalizes_three_encodings [("_rev", Value.vInt32 7)] 7).2.1 (by decide),
   (rev_normalizes_three_encodings [("_rev", Value.vInt 7)] 7).2.2 (by decide)⟩

/-- C2: for every entity whose _rev label is absent or holds a value of any
type other than int64, int32 or native int, Rev() hits the panic (embedded as
none); it never returns a default value such as 0. -/
theorem rev_fatal_on_unrecognized_type (e : Entity)
    (h : (e.get META_LABEL_REV).all (fun v => !isIntValue v) = true) :
    e.Rev = none ∧ ∀ n : Int, e.Rev ≠ some n := by
  have hrev := rev_eq_none_of_bad_type e h
  exact ⟨hrev, fun n hn => by rw [hrev] at hn; exact Option.noConfusion hn⟩

/-- Witness for C2: an absent _rev and a string-valued _rev both panic, and
neither yields 0. -/
theorem rev_fatal_on_unrecognized_type_witness :
    Entity.Rev [] = none ∧
    Entity.Rev [("_rev", Value.vStr "x")] ≠ some 0 :=
  ⟨(rev_fatal_on_unrecognized_type [] (by decide)).1,
   (rev_fatal_on_unrecognized_type [("_rev", Value.vStr "x")]
      (by decide)).2 0⟩

/-- C5: IsZero() is true exactly when the sequence of successful writes is
empty and Error is unset. -/
theorem iszero_iff_no_writes_no_error (wr : WriteResult) :
    wr.IsZero = true ↔ (wr.Writes = [] ∧ wr.Error = none) := by
  obtain ⟨ws, err⟩ := wr
  simp [WriteResult.IsZero, Option.isNone_iff_eq_none, List.length_eq_zero,
    and_comm]

/-- C7: IsMetalabel(label) is true exactly for the seven reserved names, and
false for case variants and superstrings such as _ID and _idx. -/
theorem ismetalabel_exactly_seven (label : String) :
    (IsMetalabel label = true ↔
      (label = "_id" ∨ label = "_rev" ∨ label = "_setId" ∨ label = "_setOp" ∨
       label = "_setSize" ∨ label = "_ts" ∨ label = "_type")) ∧
    IsMetalabel "_ID" = false ∧ IsMetalabel "_idx" = false := by
  refine ⟨?_, by decide, by decide⟩
  simp [IsMetalabel, metaLabels, List.contains_iff_exists_mem_beq]

/-- C8: String(label) is total; it returns the stored value when the label is
present with a string value, and the empty string in every other case. -/
theorem string_accessor_total (e : Entity) (label : String) :
    (∀ s, e.get label = some (Value.vStr s) → e.String label = s) ∧
    ((e.get label).all (fun v => !isStringValue v) = true →
      e.String label = "") := by
  constructor
  · intro s h
    simp [Entity.String, h]
  · intro h
    unfold Entity.String
    cases hv : e.get label with
    | none => rfl
    | some v =>
      rw [hv] at h
      cases v <;> simp_all [Option.all, isStringValue]

/-- Witness for C8: a present string label, a present non-string label, and
an absent label. -/
theorem string_accessor_total_witness :
    Entity.String [("a", Value.vStr "x"), ("b", Value.vInt64 3)] "a" = "x" ∧
    Entity.String [("a", Value.vStr "x"), ("b", Value.vInt64 3)] "b" = "" ∧
    Entity.String [] "c" = "" :=
  ⟨(string_accessor_total [("a", Value.vStr "x"), ("b", Value.vInt64 3)] "a").1
      "x" (by decide),
   (string_accessor_total [("a", Value.vStr "x"), ("b", Value.vInt64 3)] "b").2
      (by decide),
   (string_accessor_total [] "c").2 (by decide)⟩

/-- C9: Has(label) is true exactly when the label key exists among the keys
of the entity, independent of the stored value. -/
theorem has_iff_key_exists (e : Entity) (label : String) :
    e.Has label = true ↔ label ∈ (e : List (String × Value)).map Prod.fst := by
  unfold Entity.Has Entity.get
  exact lookup_isSome_iff_mem_keys e label

/-- C6: Labels() returns all keys of the entity (meta and user labels alike)
in ascending lexicographic order, and repeated calls on an unmodified entity
return the same sequence; in this pure embedding determinism is definitional
and is recorded by the final conjunct. -/
theorem labels_sorted_complete_deterministic (e : Entity) :
    List.Sorted (fun a b => a ≤ b) e.Labels ∧
    List.Perm e.Labels ((e : List (String × Value)).map Prod.fst) ∧
    e.Labels = e.Labels :=
  ⟨List.sorted_insertionSort _ _, List.perm_insertionSort _ _, rfl⟩

/-- C4: deriving with an empty format returns the receiver unchanged;
deriving with a non-empty format sets Message to the formatted string and
copies Type, EntityId and HTTPStatus; the receiver value is never mutated
(the embedding is pure and Go passes the receiver by value). -/
theorem error_new_derivation (e : Error) (msgFmt : String)
    (msgArgs : List Value) :
    (msgFmt = "" → e.New msgFmt msgArgs = e) ∧
    (msgFmt ≠ "" →
      (e.New msgFmt msgArgs).Message = Sprintf msgFmt msgArgs ∧
      (e.New msgFmt msgArgs).«Type» = e.«Type» ∧
      (e.New msgFmt msgArgs).EntityId = e.EntityId ∧
      (e.New msgFmt msgArgs).HTTPStatus = e.HTTPStatus) := by
  constructor
  · intro h
    simp [Error.New, h]
  · intro h
    simp [Error.New, h]

/-- Witness for C4: an empty and a non-empty format at a concrete error. -/
theorem error_new_derivation_witness :
    (Error.New ⟨"m", "t", "e1", 400⟩ "" [] = (⟨"m", "t", "e1", 400⟩ : Error)) ∧
    ((Error.New ⟨"m", "t", "e1", 400⟩ "bad %s" [Value.vStr "x"]).Message =
        Sprintf "bad %s" [Value.vStr "x"] ∧
      (Error.New ⟨"m", "t", "e1", 400⟩ "bad %s" [Value.vStr "x"]).«Type» =
        (⟨"m", "t", "e1", 400⟩ : Error).«Type» ∧
      (Error.New ⟨"m", "t", "e1", 400⟩ "bad %s" [Value.vStr "x"]).EntityId =
        (⟨"m", "t", "e1", 400⟩ : Error).EntityId ∧
      (Error.New ⟨"m", "t", "e1", 400⟩ "bad %s" [Value.vStr "x"]).HTTPStatus =
        (⟨"m", "t", "e1", 400⟩ : Error).HTTPStatus) :=
  ⟨(error_new_derivation ⟨"m", "t", "e1", 400⟩ "" []).1 rfl,
   (error_new_derivation ⟨"m", "t", "e1", 400⟩ "bad %s" [Value.vStr "x"]).2
      (by decide)⟩

/-- C3 counterexample: Set() is not total; on an entity whose _setId holds a
non-string value the unchecked string assertion panics (embedded as none). -/
theorem set_fails_on_nonstring_setId :
    Entity.Set [("_setId", Value.vInt64 1)] = none := by decide

/-- C3 amended: Set() succeeds on every entity whose present _setId and
_setOp values are strings; each field whose meta-label is absent is the zero
value, and each present string field is copied. -/
theorem set_total_on_wellformed_set_labels (e : Entity)
    (hid : (e.get "_setId").all isStringValue = true)
    (hop : (e.get "_setOp").all isStringValue = true) :
    ∃ s : Set, e.Set = some s ∧
      (e.get "_setId" = none → s.Id = "") ∧
      (∀ str : String, e.get "_setId" = some (Value.vStr str) → s.Id = str) ∧
      (e.get "_setOp" = none → s.Op = "") ∧
      (∀ str : String, e.get "_setOp" = some (Value.vStr str) → s.Op = str) ∧
      (e.get "_setSize" = none → s.Size = 0) := by
  obtain ⟨i, hi, hinone, hisome⟩ := setFieldString_of_all_string e "_setId" hid
  obtain ⟨o, ho, honone, hosome⟩ := setFieldString_of_all_string e "_setOp" hop
  refine ⟨_, set_eq_some_of_steps e i o hi ho, fun h => hinone h, hisome,
    fun h => honone h, hosome, fun h => ?_⟩
  exact setSizeVal_eq_zero_of_bad_type e (by rw [h]; rfl)

/-- Witness for C3: only _setId present, holding a string; Op and Size come
out as their zero values. -/
theorem set_total_on_wellformed_set_labels_witness :
    Entity.Set [("_setId", Value.vStr "a")] =
      some { Id := "a", Op := "", Size := 0 } := by
  obtain ⟨s, hs, -, hid, hop, -, hsz⟩ := set_total_on_wellformed_set_labels
    [("_setId", Value.vStr "a")] (by decide) (by decide)
  obtain ⟨sid, sop, ssz⟩ := s
  have h1 : sid = "a" := hid "a" (by decide)
  have h2 : sop = "" := hop (by decide)
  have h3 : ssz = 0 := hsz (by decide)
  subst h1
  subst h2
  subst h3
  exact hs

/-- C10 counterexample: an entity whose _setSize holds a non-integer value
does not always get a silent Size = 0: Set() can still panic, here on the
non-string _setId. -/
theorem setsize_nonint_can_still_fail :
    Entity.Set [("_setSize", Value.vStr "big"), ("_setId", Value.vInt64 9)] =
      none := by decide

/-- C10 amended: when _setSize is present with a value of a type outside
int64/int32/int and the present _setId/_setOp values are strings, Set()
silently yields Size = 0; Rev(), in contrast, panics (none) whenever _rev is
absent or holds an unrecognized type. -/
theorem setsize_silently_zero_vs_rev_fatal (e : Entity)
    (_hsz : (e.get "_setSize").isSome = true)
    (hszty : (e.get "_setSize").all (fun v => !isIntValue v) = true)
    (hid : (e.get "_setId").all isStringValue = true)
    (hop : (e.get "_setOp").all isStringValue = true) :
    (∃ s : Set, e.Set = some s ∧ s.Size = 0) ∧
    (∀ e2 : Entity,
      (e2.get META_LABEL_REV).all (fun v => !isIntValue v) = true →
      e2.Rev = none) := by
  constructor
  · obtain ⟨i, hi, -, -⟩ := setFieldString_of_all_string e "_setId" hid
    obtain ⟨o, ho, -, -⟩ := setFieldString_of_all_string e "_setOp" hop
    exact ⟨_, set_eq_some_of_steps e i o hi ho,
      setSizeVal_eq_zero_of_bad_type e hszty⟩
  · exact fun e2 h => rev_eq_none_of_bad_type e2 h

/-- Witness for C10: a string-valued _setSize gets a silent Size = 0 while a
bool-valued _rev panics. -/
theorem setsize_silently_zero_vs_rev_fatal_witness :
    (∃ s : Set, Entity.Set [("_setSize", Value.vStr "big")] = some s ∧
      s.Size = 0) ∧
    Entity.Rev [("_rev", Value.vBool true)] = none :=
  ⟨(setsize_silently_zero_vs_rev_fatal [("_setSize", Value.vStr "big")]
      (by decide) (by decide) (by decide) (by decide)).1,
   (setsize_silently_zero_vs_rev_fatal [("_setSize", Value.vStr "big")]
      (by decide) (by decide) (by decide) (by decide)).2
      [("_rev", Value.vBool true)] (by decide)⟩

end Etre
